import Mathlib

/-!
Verification of the SimSiam training module
(`pl_bolts/models/self_supervised/simsiam/simsiam_module.py`).

The numeric parts (`cosine_similarity`, `shared_step`, `training_step`,
`validation_step`) are embedded over the real numbers: a batch of vectors of
feature dimension `d` with `n` examples is a function `Fin n → Fin d → ℝ`.
The Siamese arm (`SiameseArm`, defined in a collaborator file) is treated as
an opaque function producing the three representations `(y, z, h)`, exactly
as the module uses it.  The stateful parts (target-network refresh, optimizer
registration, hyperparameters) are embedded as explicit state passing over an
abstract parameter-container type.
-/

namespace SimSiamModule

/-- The default `eps` of `torch.nn.functional.normalize` (`1e-12`): the
denominator used for normalization is `max(‖v‖₂, eps)`. -/
noncomputable def normEps : ℝ := 1 / 10 ^ 12

/-- Euclidean norm of one row (one example's feature vector). -/
noncomputable def rowNorm (d : ℕ) (v : Fin d → ℝ) : ℝ :=
  Real.sqrt (∑ j, v j ^ 2)

/-- `F.normalize(v, dim=-1)`: divide a row by `max(‖v‖₂, eps)`. -/
noncomputable def normalizeRow (d : ℕ) (v : Fin d → ℝ) : Fin d → ℝ :=
  fun j => v j / max (rowNorm d v) normEps

/-- `SimSiam.cosine_similarity(a, b)`:
`a = F.normalize(a, dim=-1); b = F.normalize(b, dim=-1);`
`sim = (a * b).sum(-1).mean()`.  The mean over the batch dimension of the
feature-wise sum of the elementwise product of the two normalized batches. -/
noncomputable def cosine_similarity (n d : ℕ) (a b : Fin n → Fin d → ℝ) : ℝ :=
  (∑ i, ∑ j, normalizeRow d (a i) j * normalizeRow d (b i) j) / n

/-- Modelled from the spec: the Siamese arm (`SiameseArm`, whose definition
lives in a collaborator file) returns three tensors — a raw embedding `y`, a
projected embedding `z`, and a predicted embedding `h`. -/
structure ArmOut (n d : ℕ) where
  y : Fin n → Fin d → ℝ
  z : Fin n → Fin d → ℝ
  h : Fin n → Fin d → ℝ

/-- `SimSiam.shared_step(batch, batch_idx)`.  The batch destructures as
`((img_1, img_2, _), y)`; the label slot and `y` are ignored, as is
`batch_idx`.  `loss_a = -1 * cosine_similarity(h1, z2)` with
`(y1, z1, h1) = online_network(img_1)` and `(y2, z2, h2)` the no-grad
`target_network(img_2)`; `loss_b` swaps the two images; the result is
`(loss_a, loss_b, loss_a + loss_b)`. -/
noncomputable def shared_step {Img Label Tgt : Type} (n d : ℕ)
    (online_network target_network : Img → ArmOut n d)
    (batch : (Img × Img × Label) × Tgt) (batch_idx : ℕ) : ℝ × ℝ × ℝ :=
  let img_1 := batch.1.1
  let img_2 := batch.1.2.1
  let o1 := online_network img_1
  let t2 := target_network img_2
  let loss_a := -1 * cosine_similarity n d o1.h t2.z
  let o2 := online_network img_2
  let t1 := target_network img_1
  let loss_b := -1 * cosine_similarity n d o2.h t1.z
  let total_loss := loss_a + loss_b
  (loss_a, loss_b, total_loss)

/-- `SimSiam.training_step`: runs `shared_step`, logs the three scalars under
the names `1_2_loss`, `2_1_loss`, `train_loss`, and returns the total loss.
The first component is the logged dictionary, the second the return value. -/
noncomputable def training_step {Img Label Tgt : Type} (n d : ℕ)
    (online_network target_network : Img → ArmOut n d)
    (batch : (Img × Img × Label) × Tgt) (batch_idx : ℕ) :
    List (String × ℝ) × ℝ :=
  let r := shared_step n d online_network target_network batch batch_idx
  ([("1_2_loss", r.1), ("2_1_loss", r.2.1), ("train_loss", r.2.2)], r.2.2)

/-- `SimSiam.validation_step`: identical body to `training_step`, including
the metric names (`train_loss` is logged even during validation). -/
noncomputable def validation_step {Img Label Tgt : Type} (n d : ℕ)
    (online_network target_network : Img → ArmOut n d)
    (batch : (Img × Img × Label) × Tgt) (batch_idx : ℕ) :
    List (String × ℝ) × ℝ :=
  let r := shared_step n d online_network target_network batch batch_idx
  ([("1_2_loss", r.1), ("2_1_loss", r.2.1), ("train_loss", r.2.2)], r.2.2)

/-- `SimSiam.__init__`'s hyperparameters, with the Python defaults:
`learning_rate: float = 0.2`, `weight_decay: float = 1.5e-6`,
`input_height: int = 32`, `batch_size: int = 32`, `num_workers: int = 0`,
`warmup_epochs: int = 10`, `max_epochs: int = 1000`; `num_classes` has no
default.  The decimal literals are represented exactly as rationals. -/
structure Hyperparams where
  num_classes : ℕ
  learning_rate : ℚ := 2 / 10
  weight_decay : ℚ := 15 / 10 ^ 7
  input_height : ℕ := 32
  batch_size : ℕ := 32
  num_workers : ℕ := 0
  warmup_epochs : ℕ := 10
  max_epochs : ℕ := 1000
deriving DecidableEq

/-- Which network's parameter container an optimizer is registered over. -/
inductive ParamRef where
  | online_network
  | target_network
deriving DecidableEq

/-- The base optimizer built by `configure_optimizers`:
`Adam(self.online_network.parameters(), lr=..., weight_decay=...)`, a
first-order gradient-descent optimizer registered over one parameter set. -/
structure Adam where
  params : ParamRef
  lr : ℚ
  weight_decay : ℚ
deriving DecidableEq

/-- Modelled from the spec: `LARSWrapper` (defined in
`pl_bolts/optimizers/lars_scheduling.py`, a collaborator file) wraps a base
optimizer with layer-wise adaptive rate scaling; it holds the wrapped
optimizer and changes which parameters are registered in no way. -/
structure LARSWrapper where
  optimizer : Adam
deriving DecidableEq

/-- Modelled from the spec: `LinearWarmupCosineAnnealingLR` (defined in
`pl_bolts/optimizers/lr_scheduler.py`, a collaborator file) is a schedule
attached to an optimizer, parameterized by `warmup_epochs` and
`max_epochs`: linear warmup followed by cosine annealing. -/
structure LinearWarmupCosineAnnealingLR where
  optimizer : LARSWrapper
  warmup_epochs : ℕ
  max_epochs : ℕ
deriving DecidableEq

/-- `SimSiam.configure_optimizers`: build `Adam` over
`self.online_network.parameters()` with the configured learning rate and
weight decay, wrap it in `LARSWrapper`, attach a
`LinearWarmupCosineAnnealingLR` with the configured `warmup_epochs` and
`max_epochs`, and return `[optimizer], [scheduler]`. -/
def configure_optimizers (hp : Hyperparams) :
    List LARSWrapper × List LinearWarmupCosineAnnealingLR :=
  let base : Adam :=
    { params := ParamRef.online_network
      lr := hp.learning_rate
      weight_decay := hp.weight_decay }
  let optimizer : LARSWrapper := { optimizer := base }
  let scheduler : LinearWarmupCosineAnnealingLR :=
    { optimizer := optimizer
      warmup_epochs := hp.warmup_epochs
      max_epochs := hp.max_epochs }
  ([optimizer], [scheduler])

/-- The mutable state of a `SimSiam` module: the hyperparameter record
(saved at construction) and the two networks' parameter containers.  `P` is
the abstract type of one network's parameter values; storing plain values
models `deepcopy` (a value snapshot with no aliasing). -/
structure SimSiamState (P : Type) where
  hparams : Hyperparams
  online_network : P
  target_network : P
deriving DecidableEq

/-- `SimSiam._init_target_network`:
`self.target_network = deepcopy(self.online_network)` — replace the target
parameters with a value copy of the online parameters. -/
def init_target_network {P : Type} (s : SimSiamState P) : SimSiamState P :=
  { s with target_network := s.online_network }

/-- `SimSiam.__init__(num_classes, ...)`: save the hyperparameters, create
the online network, then call `_init_target_network`. -/
def mkSimSiam {P : Type} (num_classes : ℕ) (arm : P) : SimSiamState P :=
  init_target_network
    { hparams := { num_classes := num_classes }
      online_network := arm
      target_network := arm }

/-- `SimSiam.on_train_batch_end`: unconditionally calls
`_init_target_network`, refreshing the target network after every training
batch. -/
def on_train_batch_end {P : Type} (s : SimSiamState P) : SimSiamState P :=
  init_target_network s

/-- One optimizer step: the external driver applies the gradient update `g`
to the parameters registered with the optimizer.  `configure_optimizers`
registers only `online_network.parameters()`, so only the online container
changes. -/
def optimizer_step {P : Type} (g : P → P) (s : SimSiamState P) :
    SimSiamState P :=
  { s with online_network := g s.online_network }

/-- One full training batch as the driver runs it: the optimizer step, then
`on_train_batch_end`. -/
def train_batch {P : Type} (g : P → P) (s : SimSiamState P) : SimSiamState P :=
  on_train_batch_end (optimizer_step g s)

/-! ### Helper lemmas about `cosine_similarity` -/

lemma normEps_pos : 0 < normEps := by norm_num [normEps]

lemma normEps_le_one : normEps ≤ 1 := by norm_num [normEps]

lemma rowNorm_nonneg (d : ℕ) (v : Fin d → ℝ) : 0 ≤ rowNorm d v :=
  Real.sqrt_nonneg _

lemma denom_pos (d : ℕ) (v : Fin d → ℝ) : 0 < max (rowNorm d v) normEps :=
  lt_max_of_lt_right normEps_pos

/-- Cauchy–Schwarz, in the form needed here: the absolute dot product of two
rows is at most the product of their Euclidean norms. -/
lemma abs_sum_mul_le (d : ℕ) (u w : Fin d → ℝ) :
    |∑ j, u j * w j| ≤ rowNorm d u * rowNorm d w := by
  have h := Finset.sum_mul_sq_le_sq_mul_sq Finset.univ u w
  have habs : |∑ j, u j * w j| = Real.sqrt ((∑ j, u j * w j) ^ 2) :=
    (Real.sqrt_sq_eq_abs _).symm
  rw [habs, rowNorm, rowNorm, ← Real.sqrt_mul (by positivity)]
  exact Real.sqrt_le_sqrt h

lemma rowDot_eq (d : ℕ) (u w : Fin d → ℝ) :
    ∑ j, normalizeRow d u j * normalizeRow d w j
      = (∑ j, u j * w j)
        / (max (rowNorm d u) normEps * max (rowNorm d w) normEps) := by
  rw [Finset.sum_div]
  refine Finset.sum_congr rfl fun j _ => ?_
  rw [normalizeRow, normalizeRow, div_mul_div_comm]

lemma abs_rowDot_le_one (d : ℕ) (u w : Fin d → ℝ) :
    |∑ j, normalizeRow d u j * normalizeRow d w j| ≤ 1 := by
  rw [rowDot_eq, abs_div]
  have hMu := denom_pos d u
  have hMw := denom_pos d w
  rw [abs_of_pos (mul_pos hMu hMw), div_le_one (mul_pos hMu hMw)]
  calc |∑ j, u j * w j| ≤ rowNorm d u * rowNorm d w := abs_sum_mul_le d u w
    _ ≤ max (rowNorm d u) normEps * max (rowNorm d w) normEps :=
        mul_le_mul (le_max_left _ _) (le_max_left _ _) (rowNorm_nonneg _ _)
          (le_of_lt hMu)

/-- The batch-mean of rowwise dot products of normalized rows lies in
`[-1, 1]` for a nonempty batch. -/
lemma abs_cosine_similarity_le_one (n d : ℕ) (a b : Fin n → Fin d → ℝ)
    (hn : 0 < n) : |cosine_similarity n d a b| ≤ 1 := by
  have hn' : (0 : ℝ) < n := by exact_mod_cast hn
  rw [cosine_similarity, abs_div, abs_of_pos hn', div_le_one hn']
  calc |∑ i, ∑ j, normalizeRow d (a i) j * normalizeRow d (b i) j|
      ≤ ∑ i, |∑ j, normalizeRow d (a i) j * normalizeRow d (b i) j| :=
        Finset.abs_sum_le_sum_abs _ _
    _ ≤ ∑ _i : Fin n, (1 : ℝ) :=
        Finset.sum_le_sum fun i _ => abs_rowDot_le_one d (a i) (b i)
    _ = n := by simp

lemma cosine_similarity_mem_Icc (n d : ℕ) (a b : Fin n → Fin d → ℝ)
    (hn : 0 < n) :
    -1 ≤ cosine_similarity n d a b ∧ cosine_similarity n d a b ≤ 1 :=
  abs_le.mp (abs_cosine_similarity_le_one n d a b hn)

/-- Normalizing a unit row is the identity: its norm is `1`, which dominates
`eps`. -/
lemma normalizeRow_of_unit (d : ℕ) (v : Fin d → ℝ)
    (hv : ∑ j, v j ^ 2 = 1) : normalizeRow d v = v := by
  funext j
  have h1 : rowNorm d v = 1 := by rw [rowNorm, hv, Real.sqrt_one]
  have h2 : max (rowNorm d v) normEps = 1 := by
    rw [h1]; exact max_eq_left normEps_le_one
  rw [normalizeRow, h2, div_one]

lemma cosine_similarity_self (n d : ℕ) (a : Fin n → Fin d → ℝ)
    (hn : 0 < n) (ha : ∀ i, ∑ j, a i j ^ 2 = 1) :
    cosine_similarity n d a a = 1 := by
  have hn' : (0 : ℝ) < n := by exact_mod_cast hn
  rw [cosine_similarity]
  have hrow : ∀ i : Fin n,
      ∑ j, normalizeRow d (a i) j * normalizeRow d (a i) j = 1 := by
    intro i
    rw [normalizeRow_of_unit d (a i) (ha i)]
    simpa [pow_two] using ha i
  rw [Finset.sum_congr rfl fun i _ => hrow i, Finset.sum_const]
  simp [div_self (ne_of_gt hn')]

lemma cosine_similarity_neg_self (n d : ℕ) (a : Fin n → Fin d → ℝ)
    (hn : 0 < n) (ha : ∀ i, ∑ j, a i j ^ 2 = 1) :
    cosine_similarity n d a (-a) = -1 := by
  have hn' : (0 : ℝ) < n := by exact_mod_cast hn
  have hneg : ∀ i, ∑ j, (-a) i j ^ 2 = 1 := by
    intro i; simpa [neg_pow] using ha i
  rw [cosine_similarity]
  have hrow : ∀ i : Fin n,
      ∑ j, normalizeRow d (a i) j * normalizeRow d ((-a) i) j = -1 := by
    intro i
    rw [normalizeRow_of_unit d (a i) (ha i),
      normalizeRow_of_unit d ((-a) i) (hneg i)]
    have : ∑ j, a i j * (-a) i j = -∑ j, a i j ^ 2 := by
      rw [← Finset.sum_neg_distrib]
      refine Finset.sum_congr rfl fun j _ => ?_
      simp [pow_two]
    rw [this, ha i]
  rw [Finset.sum_congr rfl fun i _ => hrow i, Finset.sum_const]
  simp [div_self (ne_of_gt hn'), neg_div]

/-! ### Concrete data for witnesses -/

/-- A concrete 1×2 batch whose single row is the unit vector `(1, 0)`. -/
noncomputable def e0 : Fin 1 → Fin 2 → ℝ := fun _ j => if j = 0 then 1 else 0

lemma e0_unit : ∀ i : Fin 1, ∑ j, e0 i j ^ 2 = 1 := by
  intro i
  simp [e0, Fin.sum_univ_two]

/-- A constant Siamese arm over a trivial image type, for witnesses. -/
noncomputable def constArm : Unit → ArmOut 1 2 := fun _ => ⟨e0, e0, e0⟩

/-! ### Claim theorems -/

/-- C1: for every batch `((img_1, img_2, label), y)`, `shared_step` returns
`(loss_a, loss_b, total_loss)` with
`loss_a = -cosine_similarity(h of online_network(img_1), z of target_network(img_2))`,
`loss_b` the same with the two images swapped, and
`total_loss = loss_a + loss_b`. -/
theorem shared_step_formula {Img Label Tgt : Type} (n d : ℕ)
    (online_network target_network : Img → ArmOut n d)
    (img_1 img_2 : Img) (lbl : Label) (y : Tgt) (batch_idx : ℕ) :
    shared_step n d online_network target_network ((img_1, img_2, lbl), y)
        batch_idx
      = (-cosine_similarity n d (online_network img_1).h
            (target_network img_2).z,
         -cosine_similarity n d (online_network img_2).h
            (target_network img_1).z,
         -cosine_similarity n d (online_network img_1).h
            (target_network img_2).z
           + -cosine_similarity n d (online_network img_2).h
              (target_network img_1).z) := by
  simp [shared_step, neg_one_mul]

/-- C2: the target network is never mutated by an optimizer step; the
refresh at the end of every training batch is the only mutation, after it
the target parameters equal the online parameters at that moment, and the
copy is a value snapshot: a later online update leaves the target at the
snapshotted value (no aliasing). -/
theorem target_network_refresh {P : Type} (g : P → P) (s : SimSiamState P) :
    (optimizer_step g s).target_network = s.target_network
    ∧ (on_train_batch_end s).target_network
        = (on_train_batch_end s).online_network
    ∧ (optimizer_step g (on_train_batch_end s)).target_network
        = s.online_network
    ∧ (train_batch g s).target_network = g s.online_network :=
  ⟨rfl, rfl, rfl, rfl⟩

/-- C3: `cosine_similarity(a, b)` is the batch mean over examples of the
feature-wise sum of the elementwise product of the L2-normalized inputs,
and the result lies in `[-1, 1]` (for a nonempty batch). -/
theorem cosine_similarity_spec (n d : ℕ) (a b : Fin n → Fin d → ℝ)
    (hn : 0 < n) :
    cosine_similarity n d a b
      = (∑ i, ∑ j, normalizeRow d (a i) j * normalizeRow d (b i) j) / n
    ∧ -1 ≤ cosine_similarity n d a b ∧ cosine_similarity n d a b ≤ 1 :=
  ⟨rfl, cosine_similarity_mem_Icc n d a b hn⟩

theorem cosine_similarity_spec_witness :
    0 < 1
    ∧ (cosine_similarity 1 2 e0 e0
        = (∑ i, ∑ j, normalizeRow 2 (e0 i) j * normalizeRow 2 (e0 i) j)
            / ((1 : ℕ) : ℝ)
      ∧ -1 ≤ cosine_similarity 1 2 e0 e0
      ∧ cosine_similarity 1 2 e0 e0 ≤ 1) :=
  ⟨Nat.one_pos, cosine_similarity_spec 1 2 e0 e0 Nat.one_pos⟩

/-- C4: `shared_step`'s `total_loss` equals `loss_a + loss_b` exactly, each
of `loss_a` and `loss_b` lies in `[-1, 1]`, and `total_loss` lies in
`[-2, 2]` (for a nonempty batch). -/
theorem shared_step_bounds {Img Label Tgt : Type} (n d : ℕ)
    (online_network target_network : Img → ArmOut n d)
    (batch : (Img × Img × Label) × Tgt) (batch_idx : ℕ) (hn : 0 < n) :
    (shared_step n d online_network target_network batch batch_idx).2.2
      = (shared_step n d online_network target_network batch batch_idx).1
        + (shared_step n d online_network target_network batch batch_idx).2.1
    ∧ -1 ≤ (shared_step n d online_network target_network batch batch_idx).1
    ∧ (shared_step n d online_network target_network batch batch_idx).1 ≤ 1
    ∧ -1 ≤ (shared_step n d online_network target_network batch
        batch_idx).2.1
    ∧ (shared_step n d online_network target_network batch batch_idx).2.1 ≤ 1
    ∧ -2 ≤ (shared_step n d online_network target_network batch
        batch_idx).2.2
    ∧ (shared_step n d online_network target_network batch batch_idx).2.2
        ≤ 2 := by
  obtain ⟨ha1, ha2⟩ := cosine_similarity_mem_Icc n d
    (online_network batch.1.1).h (target_network batch.1.2.1).z hn
  obtain ⟨hb1, hb2⟩ := cosine_similarity_mem_Icc n d
    (online_network batch.1.2.1).h (target_network batch.1.1).z hn
  refine ⟨rfl, ?_, ?_, ?_, ?_, ?_, ?_⟩ <;>
    simp only [shared_step, neg_one_mul] <;> linarith

theorem shared_step_bounds_witness :
    0 < 1
    ∧ ((shared_step 1 2 constArm constArm (((), (), ()), ()) 0).2.2
        = (shared_step 1 2 constArm constArm (((), (), ()), ()) 0).1
          + (shared_step 1 2 constArm constArm (((), (), ()), ()) 0).2.1
      ∧ -1 ≤ (shared_step 1 2 constArm constArm (((), (), ()), ()) 0).1
      ∧ (shared_step 1 2 constArm constArm (((), (), ()), ()) 0).1 ≤ 1
      ∧ -1 ≤ (shared_step 1 2 constArm constArm (((), (), ()), ()) 0).2.1
      ∧ (shared_step 1 2 constArm constArm (((), (), ()), ()) 0).2.1 ≤ 1
      ∧ -2 ≤ (shared_step 1 2 constArm constArm (((), (), ()), ()) 0).2.2
      ∧ (shared_step 1 2 constArm constArm (((), (), ()), ()) 0).2.2 ≤ 2) :=
  ⟨Nat.one_pos,
    shared_step_bounds 1 2 constArm constArm (((), (), ()), ()) 0
      Nat.one_pos⟩

/-- C5: `training_step` and `validation_step` compute the same value by the
same `shared_step`, both return the total loss, and both log the three
scalars under exactly the names `1_2_loss`, `2_1_loss` and `train_loss`
(not phase-qualified during validation). -/
theorem training_step_eq_validation_step {Img Label Tgt : Type} (n d : ℕ)
    (online_network target_network : Img → ArmOut n d)
    (batch : (Img × Img × Label) × Tgt) (batch_idx : ℕ) :
    training_step n d online_network target_network batch batch_idx
      = validation_step n d online_network target_network batch batch_idx
    ∧ (training_step n d online_network target_network batch batch_idx).1
      = [("1_2_loss",
            (shared_step n d online_network target_network batch
              batch_idx).1),
         ("2_1_loss",
            (shared_step n d online_network target_network batch
              batch_idx).2.1),
         ("train_loss",
            (shared_step n d online_network target_network batch
              batch_idx).2.2)]
    ∧ (training_step n d online_network target_network batch batch_idx).2
      = (shared_step n d online_network target_network batch batch_idx).2.2
    ∧ (validation_step n d online_network target_network batch batch_idx).2
      = (shared_step n d online_network target_network batch
          batch_idx).2.2 :=
  ⟨rfl, rfl, rfl, rfl⟩

/-- C6: `configure_optimizers` builds a single gradient-descent optimizer
over the online network's parameters only, wraps it in the layer-wise
adaptive rate-scaling wrapper, attaches a linear-warmup/cosine-annealing
schedule with the configured `warmup_epochs` and `max_epochs`, and returns
exactly one optimizer paired with exactly one schedule. -/
theorem configure_optimizers_spec (hp : Hyperparams) :
    (configure_optimizers hp).1.length = 1
    ∧ (configure_optimizers hp).2.length = 1
    ∧ (configure_optimizers hp).1.map (fun o => o.optimizer.params)
        = [ParamRef.online_network]
    ∧ (configure_optimizers hp).1.map (fun o => o.optimizer.lr)
        = [hp.learning_rate]
    ∧ (configure_optimizers hp).1.map (fun o => o.optimizer.weight_decay)
        = [hp.weight_decay]
    ∧ (configure_optimizers hp).2.map (fun sch => sch.warmup_epochs)
        = [hp.warmup_epochs]
    ∧ (configure_optimizers hp).2.map (fun sch => sch.max_epochs)
        = [hp.max_epochs]
    ∧ (configure_optimizers hp).2.map (fun sch => sch.optimizer)
        = (configure_optimizers hp).1 :=
  ⟨rfl, rfl, rfl, rfl, rfl, rfl, rfl, rfl⟩

/-- C7: `cosine_similarity` is symmetric in its two arguments. -/
theorem cosine_similarity_comm (n d : ℕ) (a b : Fin n → Fin d → ℝ) :
    cosine_similarity n d a b = cosine_similarity n d b a := by
  unfold cosine_similarity
  congr 1
  exact Finset.sum_congr rfl fun i _ =>
    Finset.sum_congr rfl fun j _ => mul_comm _ _

/-- C8: for every nonempty batch of unit-norm rows `a`,
`cosine_similarity(a, a) = 1` and `cosine_similarity(a, -a) = -1`
(so in particular both are within any approximation tolerance of `1`
and `-1`). -/
theorem cosine_similarity_self_and_neg (n d : ℕ) (a : Fin n → Fin d → ℝ)
    (hn : 0 < n) (ha : ∀ i, ∑ j, a i j ^ 2 = 1) :
    cosine_similarity n d a a = 1 ∧ cosine_similarity n d a (-a) = -1 :=
  ⟨cosine_similarity_self n d a hn ha,
   cosine_similarity_neg_self n d a hn ha⟩

theorem cosine_similarity_self_and_neg_witness :
    (0 < 1 ∧ ∀ i : Fin 1, ∑ j, e0 i j ^ 2 = 1)
    ∧ (cosine_similarity 1 2 e0 e0 = 1
      ∧ cosine_similarity 1 2 e0 (-e0) = -1) :=
  ⟨⟨Nat.one_pos, e0_unit⟩,
   cosine_similarity_self_and_neg 1 2 e0 Nat.one_pos e0_unit⟩

/-- C9: construction with only the class count given yields the documented
defaults (learning rate `0.2`, weight decay `1.5e-6`, input height `32`,
batch size `32`, `0` workers, `10` warmup epochs, `1000` max epochs), and
no operation of the module mutates the hyperparameters afterwards. -/
theorem hyperparams_defaults {P : Type} (nc : ℕ) (arm : P) (g : P → P)
    (s : SimSiamState P) :
    (mkSimSiam nc arm).hparams
      = { num_classes := nc
          learning_rate := 2 / 10
          weight_decay := 15 / 10 ^ 7
          input_height := 32
          batch_size := 32
          num_workers := 0
          warmup_epochs := 10
          max_epochs := 1000 }
    ∧ (optimizer_step g s).hparams = s.hparams
    ∧ (on_train_batch_end s).hparams = s.hparams
    ∧ (train_batch g s).hparams = s.hparams
    ∧ (init_target_network s).hparams = s.hparams :=
  ⟨rfl, rfl, rfl, rfl, rfl⟩

/-- C10: `shared_step` depends only on the two images and the network
states; the label component, the paired `y`, and `batch_idx` do not affect
any of the three returned losses. -/
theorem shared_step_label_batch_idx_independent {Img Label Tgt : Type}
    (n d : ℕ) (online_network target_network : Img → ArmOut n d)
    (img_1 img_2 : Img) (lbl lbl' : Label) (y y' : Tgt)
    (batch_idx batch_idx' : ℕ) :
    shared_step n d online_network target_network ((img_1, img_2, lbl), y)
        batch_idx
      = shared_step n d online_network target_network
          ((img_1, img_2, lbl'), y') batch_idx' :=
  rfl

end SimSiamModule
